import Mathlib

/-!
Verification of the Chat Setpar SSO middleware
(`server/utils/middleware/chatSetparSSO.js`).

The pure helpers (`isTruthyEnv`, `legacyUsernameFromEmail`,
`usernameFromPayload`, `mapSetparRoleToAnything`) are embedded directly.
The stateful pipeline (`chatSetparSSO`, `ensureMultiUserModeEnabled`,
`enableMultiUserMode`) is embedded as an interpreter over an explicit
oracle: each external store call consumes the next response from a list
and is recorded in an action trace, so ordering and frame properties
(which store calls happen, and in what order) are provable.
-/

namespace SetparSSO

/-- JavaScript-style values, for the payload fields that the code compares
with strict equality (`=== true`, `=== "superadmin"`). -/
inductive JSVal where
  | undef
  | nullv
  | bool (b : Bool)
  | str (s : String)
  | num (n : Int)
deriving DecidableEq, Repr

/-- JavaScript truthiness for a `JSVal`. -/
def jsTruthy : JSVal → Bool
  | JSVal.undef => false
  | JSVal.nullv => false
  | JSVal.bool b => b
  | JSVal.str s => s != ""
  | JSVal.num n => n != 0

/-- Decoded JWT payload: `userId` and `email` are string claims (possibly
absent), the privilege signals are arbitrary JS values. -/
structure Payload where
  userId : Option String
  email : Option String
  isSuperAdmin : JSVal
  isOwner : JSVal
  role : JSVal
deriving DecidableEq, Repr

/-- `String(x || "")` for a string-or-undefined value `x`. -/
def jsStr (o : Option String) : String := o.getD ""

/-- JS truthiness of a string-or-undefined value (`undefined` and `""` are
falsy, every other string is truthy). -/
def jsTruthyStr : Option String → Bool
  | none => false
  | some s => s != ""

/-- `isTruthyEnv` from the source: trim, lower-case, then reject the
listed falsy spellings (and absence). -/
def isTruthyEnv (value : Option String) : Bool :=
  match value with
  | none => false
  | some v =>
    let normalized : String :=
      ⟨(((v.data.dropWhile Char.isWhitespace).reverse.dropWhile
          Char.isWhitespace).reverse).map Char.toLower⟩
    !(["", "0", "false", "no", "off"].contains normalized)

/-- Characters kept by the primary-rule filter `[a-z0-9]`. -/
def isPrimaryChar (c : Char) : Bool :=
  ('a' ≤ c && c ≤ 'z') || ('0' ≤ c && c ≤ '9')

/-- Characters kept by the legacy filter class `[a-z0-9._@-]`. -/
def isLegacyChar (c : Char) : Bool :=
  isPrimaryChar c || c = '.' || c = '_' || c = '@' || c = '-'

/-- `email.split("@")[0]` at the character level: everything before the
first `@` (the whole string when there is none). -/
def splitLocalPart : List Char → List Char
  | [] => []
  | c :: cs => if c = '@' then [] else c :: splitLocalPart cs

/-- `legacyUsernameFromEmail` from the source: local part of the email,
lower-cased, filtered to `[a-z0-9._@-]`, truncated to 32 characters.
Note: no `setpar_` prefix is added here. -/
def legacyUsernameFromEmail (email : String) : String :=
  ⟨(((splitLocalPart email.data).map Char.toLower).filter isLegacyChar).take 32⟩

/-- `usernameFromPayload` from the source: primary rule from `userId`
(lower-case, keep `[a-z0-9]`, prepend `setpar_`, truncate to 32), else the
legacy email fallback with the same prefix and truncation; `none` when
neither yields a non-empty core. -/
def usernameFromPayload (p : Payload) : Option String :=
  let stableExternalId : List Char :=
    ((jsStr p.userId).data.map Char.toLower).filter isPrimaryChar
  if stableExternalId ≠ [] then
    some ⟨("setpar_".data ++ stableExternalId).take 32⟩
  else
    let fallbackFromEmail := legacyUsernameFromEmail (jsStr p.email)
    if fallbackFromEmail = "" then none
    else some ⟨("setpar_".data ++ fallbackFromEmail.data).take 32⟩

/-- `mapSetparRoleToAnything` from the source: strict checks
`isSuperAdmin === true`, `isOwner === true`, `role === "superadmin"`. -/
def mapSetparRoleToAnything (p : Payload) : String :=
  if p.isSuperAdmin = JSVal.bool true ∨ p.isOwner = JSVal.bool true ∨
      p.role = JSVal.str "superadmin" then "manager" else "default"

/-- A stored user record (the fields the middleware reads). -/
structure UserRec where
  id : Nat
  username : String
  role : String
deriving DecidableEq, Repr

/-- External store calls the pipeline performs, in order. -/
inductive Action where
  | isMultiUserMode
  | updateSettingsMultiUser
  | getUser (username : String)
  | updateUsername (id : Nat) (username : String)
  | updateRole (id : Nat) (role : String)
  | createUser (username : String) (role : String)
  | issueToken (id : Nat)
deriving DecidableEq, Repr

/-- Oracle responses for the external store calls, consumed in order. -/
inductive Resp where
  | boolR (b : Bool)
  | settingsR (success : Bool)
  | userR (u : Option UserRec)
  | updR (u : Option UserRec)
  | createR (u : Option UserRec) (error : Option String)
  | tokenR (t : Option String) (error : Option String)
deriving DecidableEq, Repr

/-- Environment configuration read by the middleware. -/
structure Env where
  CHAT_SETPAR_JWT_SECRET : Option String
  CHAT_SETPAR_DEFAULT_MULTI_USER : Option String
  CHAT_SETPAR_AUTO_ENABLE_MULTI_USER : Option String
deriving DecidableEq, Repr

/-- The request fields the middleware reads. -/
structure Request where
  sso_token : Option String
  path : String
deriving DecidableEq, Repr

/-- Result of the black-box JWT verification (out of scope of the core). -/
inductive VerifyResult where
  | valid (payload : Payload)
  | expired
  | malformed
deriving DecidableEq, Repr

/-- Observable outcome of one request. -/
inductive Outcome where
  | passThrough
  | httpError (status : Nat) (error : String)
  | redirect (status : Nat) (location : String)
deriving DecidableEq, Repr

/-- `enableMultiUserMode` from the source: one settings-store update; the
call's success flag is the result (failure is logged, not thrown). -/
def enableMultiUserMode (rs : List Resp) : Option (Bool × List Resp × List Action) :=
  match rs with
  | Resp.settingsR success :: rs1 => some (success, rs1, [Action.updateSettingsMultiUser])
  | _ => none

/-- `ensureMultiUserModeEnabled` from the source: read the flag; if set,
done; else try the boot-time default switch, then the auto-enable switch. -/
def ensureMultiUserModeEnabled (env : Env) (rs : List Resp) :
    Option (Bool × List Resp × List Action) :=
  match rs with
  | Resp.boolR alreadyEnabled :: rs1 =>
    if alreadyEnabled then some (true, rs1, [Action.isMultiUserMode])
    else if isTruthyEnv env.CHAT_SETPAR_DEFAULT_MULTI_USER then
      match enableMultiUserMode rs1 with
      | none => none
      | some (enabledByDefault, rs2, a2) =>
        if enabledByDefault then some (true, rs2, Action.isMultiUserMode :: a2)
        else if isTruthyEnv env.CHAT_SETPAR_AUTO_ENABLE_MULTI_USER then
          match enableMultiUserMode rs2 with
          | none => none
          | some (r, rs3, a3) => some (r, rs3, Action.isMultiUserMode :: (a2 ++ a3))
        else some (false, rs2, Action.isMultiUserMode :: a2)
    else if isTruthyEnv env.CHAT_SETPAR_AUTO_ENABLE_MULTI_USER then
      match enableMultiUserMode rs1 with
      | none => none
      | some (r, rs2, a2) => some (r, rs2, Action.isMultiUserMode :: a2)
    else some (false, rs1, [Action.isMultiUserMode])
  | _ => none

/-- Lines 143-166 of the source: the legacy-migration block, entered when
the primary lookup found nobody. Returns the resolved user (if any), the
remaining oracle, and the store calls made. -/
def legacyMigration (username legacyUsername : String) (rs : List Resp) :
    Option (Option UserRec × List Resp × List Action) :=
  if legacyUsername ≠ "" ∧ legacyUsername ≠ username then
    match rs with
    | Resp.userR legacyFound :: rs1 =>
      match legacyFound with
      | none => some (none, rs1, [Action.getUser legacyUsername])
      | some legacyUser =>
        match rs1 with
        | Resp.userR usernameAlreadyTaken :: rs2 =>
          match usernameAlreadyTaken with
          | some _ =>
            some (some legacyUser, rs2,
              [Action.getUser legacyUsername, Action.getUser username])
          | none =>
            match rs2 with
            | Resp.updR renamedUser :: rs3 =>
              some (renamedUser, rs3,
                [Action.getUser legacyUsername, Action.getUser username,
                 Action.updateUsername legacyUser.id username])
            | _ => none
        | _ => none
    | _ => none
  else some (none, rs, [])

/-- Lines 168-199 of the source: create the user when resolution found
none (random password, mapped role), else re-sync the role when it
differs. A create call that reports neither an error nor a user would
make the later `user.id` access throw, caught by the outer handler as a
500 "SSO authentication failed.". -/
def provisionOrSync (username mappedRole : String) (found : Option UserRec)
    (rs : List Resp) :
    Option ((Except (Nat × String) UserRec) × List Resp × List Action) :=
  match found with
  | none =>
    match rs with
    | Resp.createR newUser err :: rs1 =>
      if jsTruthyStr err then
        some (Except.error (500, "Failed to create SSO user."), rs1,
          [Action.createUser username mappedRole])
      else
        match newUser with
        | some nu => some (Except.ok nu, rs1, [Action.createUser username mappedRole])
        | none =>
          some (Except.error (500, "SSO authentication failed."), rs1,
            [Action.createUser username mappedRole])
    | _ => none
  | some u =>
    if u.role ≠ mappedRole then
      match rs with
      | Resp.updR updatedUser :: rs1 =>
        match updatedUser with
        | none =>
          some (Except.error (500, "Failed to sync SSO user role."), rs1,
            [Action.updateRole u.id mappedRole])
        | some uu => some (Except.ok uu, rs1, [Action.updateRole u.id mappedRole])
      | _ => none
    else some (Except.ok u, rs, [])

/-- Hex digit (upper case) for percent-encoding. -/
def hexDigit (n : Nat) : Char :=
  if n < 10 then Char.ofNat (48 + n) else Char.ofNat (55 + n)

/-- UTF-8 bytes of one character. -/
def utf8Bytes (c : Char) : List Nat :=
  let n := c.toNat
  if n < 128 then [n]
  else if n < 2048 then [192 + n / 64, 128 + n % 64]
  else if n < 65536 then [224 + n / 4096, 128 + (n / 64) % 64, 128 + n % 64]
  else [240 + n / 262144, 128 + (n / 4096) % 64, 128 + (n / 64) % 64, 128 + n % 64]

/-- Characters `encodeURIComponent` leaves unescaped. -/
def isUnreservedURI (c : Char) : Bool :=
  ('A' ≤ c && c ≤ 'Z') || ('a' ≤ c && c ≤ 'z') || ('0' ≤ c && c ≤ '9') ||
  c = '-' || c = '_' || c = '.' || c = '!' || c = '~' || c = '*' ||
  c = Char.ofNat 39 || c = '(' || c = ')'

/-- Percent-encoding of one character (per UTF-8 byte). -/
def percentEncodeChar (c : Char) : List Char :=
  (utf8Bytes c).foldr (fun b acc => '%' :: hexDigit (b / 16) :: hexDigit (b % 16) :: acc) []

/-- JavaScript `encodeURIComponent`. -/
def encodeURIComponent (s : String) : String :=
  ⟨s.data.foldr (fun c acc => if isUnreservedURI c then c :: acc else percentEncodeChar c ++ acc) []⟩

/-- Lines 201-214 of the source: issue the temporary auth token and build
the redirect to `/sso/simple`. -/
def sessionBridge (req : Request) (user : UserRec) (acts : List Action)
    (rs : List Resp) : Option (Outcome × List Action) :=
  match rs with
  | Resp.tokenR tempToken err :: _ =>
    let acts1 := acts ++ [Action.issueToken user.id]
    match tempToken with
    | none => some (Outcome.httpError 500 "Failed to create SSO session.", acts1)
    | some tok =>
      if jsTruthyStr err then
        some (Outcome.httpError 500 "Failed to create SSO session.", acts1)
      else
        let redirectTo := if req.path ≠ "" ∧ req.path ≠ "/sso/simple" then req.path else "/"
        some (Outcome.redirect 302
          ("/sso/simple?token=" ++ encodeURIComponent tok ++
           "&redirectTo=" ++ encodeURIComponent redirectTo), acts1)
  | _ => none

/-- The `chatSetparSSO` middleware, as a function of the request, the
environment, the (black-box) JWT verification result, and the store
oracle. Returns the outcome and the store-call trace, or `none` when the
oracle list does not match the calls actually made. -/
def chatSetparSSO (req : Request) (env : Env) (verify : VerifyResult)
    (rs : List Resp) : Option (Outcome × List Action) :=
  if !jsTruthyStr req.sso_token then some (Outcome.passThrough, [])
  else if !jsTruthyStr env.CHAT_SETPAR_JWT_SECRET then some (Outcome.passThrough, [])
  else
    match verify with
    | VerifyResult.expired => some (Outcome.httpError 401 "SSO token expired.", [])
    | VerifyResult.malformed => some (Outcome.httpError 401 "Invalid SSO token.", [])
    | VerifyResult.valid payload =>
      if !jsTruthyStr payload.userId || !jsTruthyStr payload.email then
        some (Outcome.httpError 401 "Invalid SSO token payload.", [])
      else
        match ensureMultiUserModeEnabled env rs with
        | none => none
        | some (multiUserMode, rs1, acts1) =>
          if !multiUserMode then
            some (Outcome.httpError 403 "Multi-user mode must be enabled for SSO.", acts1)
          else
            match usernameFromPayload payload with
            | none => some (Outcome.httpError 401 "Invalid SSO token payload.", acts1)
            | some username =>
              let mappedRole := mapSetparRoleToAnything payload
              match rs1 with
              | Resp.userR user0 :: rs2 =>
                let acts2 := acts1 ++ [Action.getUser username]
                match (match user0 with
                       | none =>
                         legacyMigration username
                           (legacyUsernameFromEmail (jsStr payload.email)) rs2
                       | some u => some (some u, rs2, [])) with
                | none => none
                | some (user1, rs3, actsM) =>
                  match provisionOrSync username mappedRole user1 rs3 with
                  | none => none
                  | some (res, rs4, actsP) =>
                    match res with
                    | Except.error (st, msg) =>
                      some (Outcome.httpError st msg, acts2 ++ actsM ++ actsP)
                    | Except.ok user =>
                      sessionBridge req user (acts2 ++ actsM ++ actsP) rs4
              | _ => none

end SetparSSO

namespace SetparSSO

theorem marker_chars_legacy : ∀ c ∈ "setpar_".data, isLegacyChar c = true := by decide

theorem legacy_of_primary (c : Char) (h : isPrimaryChar c = true) :
    isLegacyChar c = true := by
  simp [isLegacyChar, h]

/-- Claim C4 (amended): every successfully derived username has at most 32
characters, and every character of it lies in the legacy class
`[a-z0-9._@-]` (which contains the prefix's characters); the claim's
narrower class `[a-z0-9_]` fails on the legacy email fallback. -/
theorem C4_username_charset_length (p : Payload) (u : String)
    (h : usernameFromPayload p = some u) :
    u.length ≤ 32 ∧ ∀ c ∈ u.data, isLegacyChar c = true := by
  simp only [usernameFromPayload] at h
  split at h
  · obtain rfl := Option.some.inj h
    refine ⟨?_, ?_⟩
    · show (List.take 32 _).length ≤ 32
      rw [List.length_take]
      exact min_le_left _ _
    · intro c hc
      have hmem := List.take_subset _ _ hc
      rcases List.mem_append.1 hmem with hp | hf
      · exact marker_chars_legacy c hp
      · exact legacy_of_primary c (List.of_mem_filter hf)
  · split at h
    · exact absurd h (by simp)
    · obtain rfl := Option.some.inj h
      refine ⟨?_, ?_⟩
      · show (List.take 32 _).length ≤ 32
        rw [List.length_take]
        exact min_le_left _ _
      · intro c hc
        have hmem := List.take_subset _ _ hc
        rcases List.mem_append.1 hmem with hp | hf
        · exact marker_chars_legacy c hp
        · have hf2 := List.take_subset _ _ hf
          exact List.of_mem_filter hf2

theorem C4_witness :
    usernameFromPayload ⟨some "User-42", some "a@x.com", JSVal.undef, JSVal.undef, JSVal.undef⟩ =
      some "setpar_user42" ∧
    ("setpar_user42".length ≤ 32 ∧ ∀ c ∈ "setpar_user42".data, isLegacyChar c = true) :=
  ⟨by decide,
   C4_username_charset_length
     ⟨some "User-42", some "a@x.com", JSVal.undef, JSVal.undef, JSVal.undef⟩
     "setpar_user42" (by decide)⟩

/-- Claim C4 counterexample: the legacy email fallback keeps dots, so the
derived username `setpar_bob.smith` contains a character outside the
claimed class `[a-z0-9_]`. -/
theorem C4_counterexample :
    usernameFromPayload ⟨some "###", some "Bob.Smith@x.com", JSVal.undef, JSVal.undef, JSVal.undef⟩ =
      some "setpar_bob.smith" ∧
    "setpar_bob.smith".data.all (fun c => isPrimaryChar c || c = '_') = false :=
  ⟨by decide, by decide⟩

/-- Claim C9: username derivation reads only the payload's `userId` and
`email`; payloads agreeing on those two fields derive the same username,
so repeated requests from the same external identity derive the same
username. -/
theorem C9_username_pure_function (p q : Payload)
    (h1 : p.userId = q.userId) (h2 : p.email = q.email) :
    usernameFromPayload p = usernameFromPayload q := by
  unfold usernameFromPayload
  rw [h1, h2]

theorem C9_witness :
    usernameFromPayload ⟨some "U1", some "a@x.com", JSVal.undef, JSVal.undef, JSVal.undef⟩ =
    usernameFromPayload ⟨some "U1", some "a@x.com", JSVal.bool true, JSVal.bool true,
      JSVal.str "superadmin"⟩ :=
  C9_username_pure_function _ _ rfl rfl

/-- Claim C5: the role mapper returns `"manager"` exactly when the
super-admin flag, the owner flag, or the role string `"superadmin"` is
present (strict equality), and never returns anything besides
`"manager"` and `"default"`. -/
theorem C5_role_mapper_exact (p : Payload) :
    (mapSetparRoleToAnything p = "manager" ↔
      (p.isSuperAdmin = JSVal.bool true ∨ p.isOwner = JSVal.bool true ∨
       p.role = JSVal.str "superadmin")) ∧
    (mapSetparRoleToAnything p = "manager" ∨ mapSetparRoleToAnything p = "default") := by
  unfold mapSetparRoleToAnything
  by_cases h : (p.isSuperAdmin = JSVal.bool true ∨ p.isOwner = JSVal.bool true ∨
      p.role = JSVal.str "superadmin")
  · simp [h]
  · simp [h]

/-- Claim C10: the privilege flags are compared with strict boolean
equality, so truthy non-boolean flag values (like `"true"` or `1`) map to
the standard role unless the role string is exactly `"superadmin"`. -/
theorem C10_strict_boolean_flags (p : Payload)
    (_htruthy : jsTruthy p.isSuperAdmin = true ∨ jsTruthy p.isOwner = true)
    (h1 : p.isSuperAdmin ≠ JSVal.bool true) (h2 : p.isOwner ≠ JSVal.bool true)
    (h3 : p.role ≠ JSVal.str "superadmin") :
    mapSetparRoleToAnything p = "default" := by
  unfold mapSetparRoleToAnything
  simp [h1, h2, h3]

theorem C10_witness :
    (jsTruthy (JSVal.str "true") = true ∨ jsTruthy (JSVal.num 1) = true) ∧
    mapSetparRoleToAnything ⟨none, none, JSVal.str "true", JSVal.num 1, JSVal.str "admin"⟩ =
      "default" :=
  ⟨Or.inl (by decide),
   C10_strict_boolean_flags _ (Or.inl (by decide)) (by decide) (by decide) (by decide)⟩

/-- Claim C1 counterexample: a validated payload carrying a non-empty
email but no `userId` is rejected by the pipeline with 401
"Invalid SSO token payload." (the guard is `!userId || !email`), even
though the derivation function alone would produce `setpar_bob.smith`. -/
theorem C1_counterexample :
    chatSetparSSO ⟨some "token123", "/"⟩ ⟨some "secret", none, none⟩
      (VerifyResult.valid ⟨none, some "Bob.Smith@x.com", JSVal.undef, JSVal.undef, JSVal.undef⟩)
      [] =
      some (Outcome.httpError 401 "Invalid SSO token payload.", []) ∧
    usernameFromPayload ⟨none, some "Bob.Smith@x.com", JSVal.undef, JSVal.undef, JSVal.undef⟩ =
      some "setpar_bob.smith" :=
  ⟨rfl, by decide⟩

/-- Claim C1 (amended): the pipeline rejects any validated payload whose
`userId` is missing or empty — even when a non-empty email is present —
with 401 and no store access; the email-only legacy derivation is never
reached by the pipeline. -/
theorem C1_rejects_missing_userId (req : Request) (env : Env) (p : Payload)
    (rs : List Resp)
    (ht : jsTruthyStr req.sso_token = true)
    (hs : jsTruthyStr env.CHAT_SETPAR_JWT_SECRET = true)
    (hu : jsTruthyStr p.userId = false) :
    chatSetparSSO req env (VerifyResult.valid p) rs =
      some (Outcome.httpError 401 "Invalid SSO token payload.", []) := by
  simp [chatSetparSSO, ht, hs, hu]

theorem C1_witness :
    (jsTruthyStr (some "tok") = true ∧ jsTruthyStr (some "secret") = true ∧
      jsTruthyStr (none : Option String) = false) ∧
    chatSetparSSO ⟨some "tok", "/app"⟩ ⟨some "secret", none, none⟩
      (VerifyResult.valid ⟨none, some "x@y.com", JSVal.undef, JSVal.undef, JSVal.undef⟩)
      [Resp.boolR true] =
      some (Outcome.httpError 401 "Invalid SSO token payload.", []) :=
  ⟨⟨rfl, rfl, rfl⟩, C1_rejects_missing_userId _ _ _ _ rfl rfl rfl⟩

end SetparSSO

namespace SetparSSO

theorem jsTruthyStr_none : jsTruthyStr (none : Option String) = false := rfl

theorem ensure_already (env : Env) (rs : List Resp) :
    ensureMultiUserModeEnabled env (Resp.boolR true :: rs) =
      some (true, rs, [Action.isMultiUserMode]) := rfl

theorem ensure_disabled (env : Env) (rs : List Resp)
    (hd : isTruthyEnv env.CHAT_SETPAR_DEFAULT_MULTI_USER = false)
    (ha : isTruthyEnv env.CHAT_SETPAR_AUTO_ENABLE_MULTI_USER = false) :
    ensureMultiUserModeEnabled env (Resp.boolR false :: rs) =
      some (false, rs, [Action.isMultiUserMode]) := by
  simp [ensureMultiUserModeEnabled, hd, ha]

/-- Claim C7: with multi-tenant mode off and both enable switches falsy, a
request with a valid, complete payload gets a 403 and the only external
call made is the settings read: no user-store read or write and no
settings mutation happens. -/
theorem C7_disabled_no_store_access (req : Request) (env : Env) (p : Payload)
    (rs : List Resp)
    (ht : jsTruthyStr req.sso_token = true)
    (hs : jsTruthyStr env.CHAT_SETPAR_JWT_SECRET = true)
    (hu : jsTruthyStr p.userId = true)
    (he : jsTruthyStr p.email = true)
    (hd : isTruthyEnv env.CHAT_SETPAR_DEFAULT_MULTI_USER = false)
    (ha : isTruthyEnv env.CHAT_SETPAR_AUTO_ENABLE_MULTI_USER = false) :
    chatSetparSSO req env (VerifyResult.valid p) (Resp.boolR false :: rs) =
      some (Outcome.httpError 403 "Multi-user mode must be enabled for SSO.",
        [Action.isMultiUserMode]) := by
  simp [chatSetparSSO, ht, hs, hu, he, ensure_disabled env rs hd ha]

theorem C7_witness :
    (jsTruthyStr (some "tok7") = true ∧ jsTruthyStr (some "sec7") = true ∧
      isTruthyEnv (none : Option String) = false) ∧
    chatSetparSSO ⟨some "tok7", "/"⟩ ⟨some "sec7", none, none⟩
      (VerifyResult.valid ⟨some "U7", some "u7@x.com", JSVal.undef, JSVal.undef, JSVal.undef⟩)
      [Resp.boolR false] =
      some (Outcome.httpError 403 "Multi-user mode must be enabled for SSO.",
        [Action.isMultiUserMode]) :=
  ⟨⟨rfl, rfl, rfl⟩,
   C7_disabled_no_store_access _ _ _ _ rfl rfl rfl rfl rfl rfl⟩

/-- Claim C8: exact characterization of the multi-tenancy bootstrapper:
already enabled means immediate success with no enable call; otherwise
the default-enable switch drives a first attempt, the auto-enable switch
a second; failure results exactly when no switch-permitted attempt
succeeds. -/
theorem C8_bootstrap_algorithm (env : Env) (e s1 s2 : Bool) (rest : List Resp) :
    ensureMultiUserModeEnabled env
      (Resp.boolR e :: Resp.settingsR s1 :: Resp.settingsR s2 :: rest) =
    (if e then
      some (true, Resp.settingsR s1 :: Resp.settingsR s2 :: rest, [Action.isMultiUserMode])
     else if isTruthyEnv env.CHAT_SETPAR_DEFAULT_MULTI_USER then
       (if s1 then
          some (true, Resp.settingsR s2 :: rest,
            [Action.isMultiUserMode, Action.updateSettingsMultiUser])
        else if isTruthyEnv env.CHAT_SETPAR_AUTO_ENABLE_MULTI_USER then
          some (s2, rest,
            [Action.isMultiUserMode, Action.updateSettingsMultiUser,
             Action.updateSettingsMultiUser])
        else
          some (false, Resp.settingsR s2 :: rest,
            [Action.isMultiUserMode, Action.updateSettingsMultiUser]))
     else if isTruthyEnv env.CHAT_SETPAR_AUTO_ENABLE_MULTI_USER then
       some (s1, Resp.settingsR s2 :: rest,
         [Action.isMultiUserMode, Action.updateSettingsMultiUser])
     else
       some (false, Resp.settingsR s1 :: Resp.settingsR s2 :: rest,
         [Action.isMultiUserMode])) := by
  cases e <;> cases s1 <;> cases s2 <;>
    cases hd : isTruthyEnv env.CHAT_SETPAR_DEFAULT_MULTI_USER <;>
    cases ha : isTruthyEnv env.CHAT_SETPAR_AUTO_ENABLE_MULTI_USER <;>
      simp [ensureMultiUserModeEnabled, enableMultiUserMode, hd, ha]

/-- Claim C2 counterexample: when the legacy rename fails at the store,
the pipeline does not abort with a migration failure — it proceeds to
create a brand-new user under the primary username and answers with the
success redirect; the trace shows the `createUser` call the claim
forbids. -/
theorem C2_counterexample :
    chatSetparSSO ⟨some "tok2", "/"⟩ ⟨some "sec2", none, none⟩
      (VerifyResult.valid ⟨some "U1", some "bob@x.com", JSVal.undef, JSVal.undef, JSVal.undef⟩)
      [Resp.boolR true, Resp.userR none, Resp.userR (some ⟨7, "bob", "default"⟩),
       Resp.userR none, Resp.updR none,
       Resp.createR (some ⟨9, "setpar_u1", "default"⟩) none,
       Resp.tokenR (some "abc123") none] =
      some (Outcome.redirect 302 "/sso/simple?token=abc123&redirectTo=%2F",
        [Action.isMultiUserMode, Action.getUser "setpar_u1", Action.getUser "bob",
         Action.getUser "setpar_u1", Action.updateUsername 7 "setpar_u1",
         Action.createUser "setpar_u1" "default", Action.issueToken 9]) := rfl

/-- Claim C2 (amended): a failed rename of the found legacy user is
logged and the legacy user stays unrenamed, but the pipeline does not
abort: it continues to the provisioning step and creates a new user under
the primary username, finishing with the success redirect. -/
theorem C2_renameFailure_creates_new_user (req : Request) (env : Env) (p : Payload)
    (u : String) (lu nu : UserRec) (tok : String) (rs : List Resp)
    (ht : jsTruthyStr req.sso_token = true)
    (hs : jsTruthyStr env.CHAT_SETPAR_JWT_SECRET = true)
    (hu : jsTruthyStr p.userId = true)
    (he : jsTruthyStr p.email = true)
    (hn : usernameFromPayload p = some u)
    (h1 : legacyUsernameFromEmail (jsStr p.email) ≠ "")
    (h2 : legacyUsernameFromEmail (jsStr p.email) ≠ u) :
    chatSetparSSO req env (VerifyResult.valid p)
      (Resp.boolR true :: Resp.userR none ::
       Resp.userR (some lu) :: Resp.userR none :: Resp.updR none ::
       Resp.createR (some nu) none :: Resp.tokenR (some tok) none :: rs) =
      some (Outcome.redirect 302
          ("/sso/simple?token=" ++ encodeURIComponent tok ++ "&redirectTo=" ++
            encodeURIComponent
              (if req.path ≠ "" ∧ req.path ≠ "/sso/simple" then req.path else "/")),
        [Action.isMultiUserMode, Action.getUser u,
         Action.getUser (legacyUsernameFromEmail (jsStr p.email)), Action.getUser u,
         Action.updateUsername lu.id u,
         Action.createUser u (mapSetparRoleToAnything p),
         Action.issueToken nu.id]) := by
  simp [chatSetparSSO, ht, hs, hu, he, hn, ensure_already, legacyMigration, h1, h2,
        provisionOrSync, sessionBridge, jsTruthyStr_none]

theorem C2_witness :
    (usernameFromPayload ⟨some "U1", some "bob@y.org", JSVal.undef, JSVal.undef, JSVal.undef⟩ =
        some "setpar_u1" ∧
      legacyUsernameFromEmail "bob@y.org" ≠ "" ∧
      legacyUsernameFromEmail "bob@y.org" ≠ "setpar_u1") ∧
    chatSetparSSO ⟨some "tk", "/w"⟩ ⟨some "sc", none, none⟩
      (VerifyResult.valid ⟨some "U1", some "bob@y.org", JSVal.undef, JSVal.undef, JSVal.undef⟩)
      [Resp.boolR true, Resp.userR none, Resp.userR (some ⟨3, "bob", "default"⟩),
       Resp.userR none, Resp.updR none,
       Resp.createR (some ⟨4, "setpar_u1", "default"⟩) none,
       Resp.tokenR (some "zz") none] =
      some (Outcome.redirect 302 "/sso/simple?token=zz&redirectTo=%2Fw",
        [Action.isMultiUserMode, Action.getUser "setpar_u1", Action.getUser "bob",
         Action.getUser "setpar_u1", Action.updateUsername 3 "setpar_u1",
         Action.createUser "setpar_u1" "default", Action.issueToken 4]) :=
  ⟨⟨by decide, by decide, by decide⟩,
   C2_renameFailure_creates_new_user _ _ _ "setpar_u1" ⟨3, "bob", "default"⟩
     ⟨4, "setpar_u1", "default"⟩ "zz" [] rfl rfl rfl rfl (by decide) (by decide) (by decide)⟩

/-- Claim C3 counterexample: after a primary-username miss the code looks
the legacy user up under the bare filtered email local-part (`zed`), not
under the prefixed form `setpar_zed` the claim states. -/
theorem C3_counterexample :
    (chatSetparSSO ⟨some "tok3", "/"⟩ ⟨some "sec3", none, none⟩
      (VerifyResult.valid ⟨some "U1", some "Zed@x.com", JSVal.undef, JSVal.undef, JSVal.undef⟩)
      [Resp.boolR true, Resp.userR none, Resp.userR none,
       Resp.createR (some ⟨9, "setpar_u1", "default"⟩) none,
       Resp.tokenR (some "t0") none] =
      some (Outcome.redirect 302 "/sso/simple?token=t0&redirectTo=%2F",
        [Action.isMultiUserMode, Action.getUser "setpar_u1", Action.getUser "zed",
         Action.createUser "setpar_u1" "default", Action.issueToken 9])) ∧
    legacyUsernameFromEmail "Zed@x.com" = "zed" ∧
    Action.getUser "setpar_zed" ∉
      ([Action.isMultiUserMode, Action.getUser "setpar_u1", Action.getUser "zed",
        Action.createUser "setpar_u1" "default", Action.issueToken 9] : List Action) :=
  ⟨rfl, rfl, by decide⟩

/-- Claim C3 (amended): when the primary lookup misses, the migration
step computes the legacy username as the lower-cased, filtered email
local-part truncated to 32 characters — without the `setpar_` prefix —
and (when non-empty and distinct from the primary username) looks the
legacy user up under exactly that name. -/
theorem C3_legacy_lookup_unprefixed (req : Request) (env : Env) (p : Payload)
    (u : String) (nu : UserRec) (tok : String) (rs : List Resp)
    (ht : jsTruthyStr req.sso_token = true)
    (hs : jsTruthyStr env.CHAT_SETPAR_JWT_SECRET = true)
    (hu : jsTruthyStr p.userId = true)
    (he : jsTruthyStr p.email = true)
    (hn : usernameFromPayload p = some u)
    (h1 : legacyUsernameFromEmail (jsStr p.email) ≠ "")
    (h2 : legacyUsernameFromEmail (jsStr p.email) ≠ u) :
    chatSetparSSO req env (VerifyResult.valid p)
      (Resp.boolR true :: Resp.userR none :: Resp.userR none ::
       Resp.createR (some nu) none :: Resp.tokenR (some tok) none :: rs) =
      some (Outcome.redirect 302
          ("/sso/simple?token=" ++ encodeURIComponent tok ++ "&redirectTo=" ++
            encodeURIComponent
              (if req.path ≠ "" ∧ req.path ≠ "/sso/simple" then req.path else "/")),
        [Action.isMultiUserMode, Action.getUser u,
         Action.getUser (legacyUsernameFromEmail (jsStr p.email)),
         Action.createUser u (mapSetparRoleToAnything p),
         Action.issueToken nu.id]) := by
  simp [chatSetparSSO, ht, hs, hu, he, hn, ensure_already, legacyMigration, h1, h2,
        provisionOrSync, sessionBridge, jsTruthyStr_none]

theorem C3_witness :
    (usernameFromPayload ⟨some "U2", some "Ann@x.com", JSVal.undef, JSVal.undef, JSVal.undef⟩ =
        some "setpar_u2" ∧
      legacyUsernameFromEmail "Ann@x.com" ≠ "" ∧
      legacyUsernameFromEmail "Ann@x.com" ≠ "setpar_u2") ∧
    chatSetparSSO ⟨some "tk3", "/"⟩ ⟨some "sc3", none, none⟩
      (VerifyResult.valid ⟨some "U2", some "Ann@x.com", JSVal.undef, JSVal.undef, JSVal.undef⟩)
      [Resp.boolR true, Resp.userR none, Resp.userR none,
       Resp.createR (some ⟨11, "setpar_u2", "default"⟩) none,
       Resp.tokenR (some "q1") none] =
      some (Outcome.redirect 302 "/sso/simple?token=q1&redirectTo=%2F",
        [Action.isMultiUserMode, Action.getUser "setpar_u2", Action.getUser "ann",
         Action.createUser "setpar_u2" "default", Action.issueToken 11]) :=
  ⟨⟨by decide, by decide, by decide⟩,
   C3_legacy_lookup_unprefixed _ _ _ "setpar_u2" ⟨11, "setpar_u2", "default"⟩ "q1" []
     rfl rfl rfl rfl (by decide) (by decide) (by decide)⟩

/-- Claim C6: when the legacy user exists but the primary username is
already held (second lookup finds a holder), the pipeline keeps the
legacy user as-is: the trace shows no rename (`updateUsername`) and no
`createUser`, and the session is issued for the legacy user's id. -/
theorem C6_conflict_keeps_legacy (req : Request) (env : Env) (p : Payload)
    (u : String) (lu taken : UserRec) (tok : String) (rs : List Resp)
    (ht : jsTruthyStr req.sso_token = true)
    (hs : jsTruthyStr env.CHAT_SETPAR_JWT_SECRET = true)
    (hu : jsTruthyStr p.userId = true)
    (he : jsTruthyStr p.email = true)
    (hn : usernameFromPayload p = some u)
    (h1 : legacyUsernameFromEmail (jsStr p.email) ≠ "")
    (h2 : legacyUsernameFromEmail (jsStr p.email) ≠ u)
    (hrole : lu.role = mapSetparRoleToAnything p) :
    chatSetparSSO req env (VerifyResult.valid p)
      (Resp.boolR true :: Resp.userR none ::
       Resp.userR (some lu) :: Resp.userR (some taken) ::
       Resp.tokenR (some tok) none :: rs) =
      some (Outcome.redirect 302
          ("/sso/simple?token=" ++ encodeURIComponent tok ++ "&redirectTo=" ++
            encodeURIComponent
              (if req.path ≠ "" ∧ req.path ≠ "/sso/simple" then req.path else "/")),
        [Action.isMultiUserMode, Action.getUser u,
         Action.getUser (legacyUsernameFromEmail (jsStr p.email)), Action.getUser u,
         Action.issueToken lu.id]) := by
  simp [chatSetparSSO, ht, hs, hu, he, hn, ensure_already, legacyMigration, h1, h2,
        provisionOrSync, sessionBridge, jsTruthyStr_none, hrole]

theorem C6_witness :
    (usernameFromPayload ⟨some "U1", some "bob@x.com", JSVal.undef, JSVal.undef, JSVal.undef⟩ =
        some "setpar_u1" ∧
      legacyUsernameFromEmail "bob@x.com" ≠ "" ∧
      legacyUsernameFromEmail "bob@x.com" ≠ "setpar_u1" ∧
      (⟨7, "bob", "default"⟩ : UserRec).role =
        mapSetparRoleToAnything ⟨some "U1", some "bob@x.com", JSVal.undef, JSVal.undef, JSVal.undef⟩) ∧
    chatSetparSSO ⟨some "tk6", "/"⟩ ⟨some "sc6", none, none⟩
      (VerifyResult.valid ⟨some "U1", some "bob@x.com", JSVal.undef, JSVal.undef, JSVal.undef⟩)
      [Resp.boolR true, Resp.userR none, Resp.userR (some ⟨7, "bob", "default"⟩),
       Resp.userR (some ⟨5, "setpar_u1", "manager"⟩), Resp.tokenR (some "w6") none] =
      some (Outcome.redirect 302 "/sso/simple?token=w6&redirectTo=%2F",
        [Action.isMultiUserMode, Action.getUser "setpar_u1", Action.getUser "bob",
         Action.getUser "setpar_u1", Action.issueToken 7]) :=
  ⟨⟨by decide, by decide, by decide, by decide⟩,
   C6_conflict_keeps_legacy _ _ _ "setpar_u1" ⟨7, "bob", "default"⟩
     ⟨5, "setpar_u1", "manager"⟩ "w6" [] rfl rfl rfl rfl (by decide) (by decide) (by decide)
     (by decide)⟩

end SetparSSO
